import Mathlib

/-!
Verification of the ticket-listing query builder of whaticket-community.

The repository contains two variants of `ListTicketsService`:
* `src/backend/src/services/TicketServices/ListTicketsService.ts`,
  embedded below in namespace `Backend`;
* `src/unnamed/part_000`, embedded below in namespace `Part000`.

Both variants incrementally build a Sequelize `where` object (a JavaScript
object literal, repeatedly spread and extended), then issue one paginated,
counted, `updatedAt`-descending query.  The embedding models the `where`
object as a record with one field per JavaScript key that the code ever
writes; re-writing a key (in particular the computed key `[Op.or]`)
overwrites the previous value, exactly as object spread does.

External collaborators are modelled as parameters:
* `lookup` models `ShowUserService` (repository code not under `src/`):
  per the spec it fails with a not-found error when the user is absent;
* `parseDate` models the date-fns `parseISO`/`startOfDay` composite
  (external library): per the spec a malformed date fails with a
  validation error, a parseable date yields the start-of-day epoch
  milliseconds.
-/

/-- A chat message attached to a ticket (only `body` is queried). -/
structure Msg where
  body : String
deriving DecidableEq, Repr

/-- A ticket row together with the joined contact columns and its messages. -/
structure Ticket where
  id : Nat
  userId : String
  status : String
  queueId : Option Int
  contactName : String
  contactNumber : String
  unreadMessages : Nat
  createdAt : Int
  updatedAt : Int
  messages : List Msg
deriving DecidableEq, Repr

/-- The acting user as returned by the user-lookup collaborator. -/
structure User where
  profile : String
  queues : List Int
deriving DecidableEq, Repr

/-- The request parameters of `ListTicketsService`.  String flags keep their
string form (`showAll`, `withUnreadMessages` are compared to `"true"`);
`pageNumber` is modelled as the numeric value the service obtains with the
unary `+` coercion. -/
structure Request where
  searchParam : String := ""
  pageNumber : Int := 1
  status : Option String := none
  date : Option String := none
  showAll : Option String := none
  userId : String
  withUnreadMessages : Option String := none
  queueIds : List Int := []
deriving DecidableEq, Repr

/-- The response shape `{ tickets, count, hasMore }`. -/
structure Response where
  tickets : List Ticket
  count : Nat
  hasMore : Bool
deriving DecidableEq, Repr

/-- The two domain errors of the spec. -/
inductive SvcError where
  | notFound
  | validationError
deriving DecidableEq, Repr

deriving instance DecidableEq for Except

/-- JavaScript truthiness of an optional string: `undefined` and `""` are
falsy, every other string is truthy. -/
def truthyStr : Option String → Bool
  | none => false
  | some s => !(s == "")

/-- Pattern match at the head of a character list. -/
def matchHere : List Char → List Char → Bool
  | [], _ => true
  | _ :: _, [] => false
  | a :: as, b :: bs => a == b && matchHere as bs

/-- Substring occurrence on character lists; models SQL `LIKE '%pat%'` with a
literal pattern.  The empty pattern matches everything. -/
def containsSub (p : List Char) : List Char → Bool
  | [] => p.isEmpty
  | c :: rest => matchHere p (c :: rest) || containsSub p rest

/-- `LIKE '%pat%'` on strings. -/
def likeContains (pat s : String) : Bool := containsSub pat.data s.data

/-- Character-wise lower-casing (the semantics of `String.toLower` and of
the SQL `LOWER` function, written over the character list so that it
reduces). -/
def lowerStr (s : String) : String := ⟨s.data.map Char.toLower⟩

/-- Strip leading and trailing whitespace from a character list. -/
def trimCL (l : List Char) : List Char :=
  ((l.dropWhile Char.isWhitespace).reverse.dropWhile Char.isWhitespace).reverse

/-- `searchParam.toLocaleLowerCase().trim()`. -/
def sanitize (s : String) : String := ⟨trimCL (s.data.map Char.toLower)⟩

/-- The value stored under the `queueId` key of the `where` object. -/
inductive QueueClause where
  /-- Backend variant: `queueId: { [Op.in]: ids }`. -/
  | inList (ids : List Int)
  /-- Part000 variant: `queueId: { [Op.or]: [ids, null] }`,
  i.e. `queueId IN ids OR queueId IS NULL`. -/
  | inListOrNull (ids : List Int)
deriving DecidableEq, Repr

/-- Row semantics of the `queueId` clause.  An SQL `IN` over an empty list
matches nothing, and `NULL` never satisfies `IN`. -/
def QueueClause.matches : QueueClause → Option Int → Bool
  | .inList ids, some q => ids.contains q
  | .inList _, none => false
  | .inListOrNull ids, some q => ids.contains q
  | .inListOrNull _, none => true

/-- The value stored under the computed key `[Op.or]` of the `where` object.
Both variants write this key for two different purposes; a later write
overwrites an earlier one. -/
inductive OrClause where
  /-- `[{ userId }, { status: "pending" }]`. -/
  | ownerOrPending (uid : String)
  /-- The search disjunction over contact name (lowered), contact number
  (not lowered) and message body (lowered); `pat` is already sanitized. -/
  | search (pat : String)
deriving DecidableEq, Repr

/-- Row semantics of the `[Op.or]` clause. -/
def OrClause.matches (c : OrClause) (t : Ticket) : Bool :=
  match c with
  | .ownerOrPending uid => t.userId == uid || t.status == "pending"
  | .search pat =>
      likeContains pat (lowerStr t.contactName) ||
      likeContains pat t.contactNumber ||
      t.messages.any (fun m => likeContains pat (lowerStr m.body))

/-- The `where` object: one field per JavaScript key the code ever writes.
`none` means the key is absent. -/
structure WhereCond where
  queueId : Option QueueClause := none
  orKey : Option OrClause := none
  status : Option String := none
  createdAt : Option (Int × Int) := none
  unreadGt0 : Bool := false
deriving DecidableEq, Repr

/-- The queue conjunct of the predicate. -/
def WhereCond.queueOk (w : WhereCond) (t : Ticket) : Bool :=
  match w.queueId with
  | none => true
  | some c => c.matches t.queueId

/-- The `[Op.or]` conjunct of the predicate. -/
def WhereCond.orOk (w : WhereCond) (t : Ticket) : Bool :=
  match w.orKey with
  | none => true
  | some c => c.matches t

/-- The `status` conjunct. -/
def WhereCond.statusOk (w : WhereCond) (t : Ticket) : Bool :=
  match w.status with
  | none => true
  | some s => t.status == s

/-- The `createdAt BETWEEN` conjunct. -/
def WhereCond.dateOk (w : WhereCond) (t : Ticket) : Bool :=
  match w.createdAt with
  | none => true
  | some (a, b) => decide (a ≤ t.createdAt) && decide (t.createdAt ≤ b)

/-- The `unreadMessages > 0` conjunct. -/
def WhereCond.unreadOk (w : WhereCond) (t : Ticket) : Bool :=
  !w.unreadGt0 || decide (0 < t.unreadMessages)

/-- Row semantics of the whole `where` object: the conjunction of every
present key. -/
def WhereCond.matches (w : WhereCond) (t : Ticket) : Bool :=
  w.queueOk t && w.orOk t && w.statusOk t && w.dateOk t && w.unreadOk t

/-- The `if (status)` block, identical in both variants. -/
def applyStatus (req : Request) (w : WhereCond) : WhereCond :=
  if truthyStr req.status then { w with status := some (req.status.getD "") }
  else w

/-- The `if (searchParam)` block, identical in both variants: it writes the
`[Op.or]` key with the search disjunction (overwriting any previous
`[Op.or]` value, as object spread does). -/
def applySearch (req : Request) (w : WhereCond) : WhereCond :=
  if !(req.searchParam == "") then
    { w with orKey := some (OrClause.search (sanitize req.searchParam)) }
  else w

/-- The `if (date)` block: writes `createdAt: { [Op.between]: [...] }` when a
range was computed from the `date` parameter. -/
def applyDateRange (r : Option (Int × Int)) (w : WhereCond) : WhereCond :=
  match r with
  | none => w
  | some rng => { w with createdAt := some rng }

/-- Modelled from the spec: the date collaborator
(`parseISO`/`startOfDay`/`endOfDay` of date-fns, external to the
repository).  A truthy `date` parameter is parsed before the ticket query;
a malformed date propagates as a validation error, a parseable one yields
the epoch-millisecond interval `[startOfDay, endOfDay]` of that calendar
day. -/
def parseDateRange (parseDate : String → Option Int) (req : Request) :
    Except SvcError (Option (Int × Int)) :=
  if truthyStr req.date then
    match parseDate (req.date.getD "") with
    | some d => .ok (some (d, d + 86399999))
    | none => .error SvcError.validationError
  else .ok none

/-- `findAndCountAll` with `distinct: true`, `limit 40`,
`offset = 40 * (page - 1)` and `order updatedAt DESC`, over an explicit
list of ticket rows.  `insertDesc`/`sortDesc` realise the descending
order. -/
def insertDesc (t : Ticket) : List Ticket → List Ticket
  | [] => [t]
  | h :: rest =>
      if h.updatedAt ≤ t.updatedAt then t :: h :: rest
      else h :: insertDesc t rest

/-- Sort by `updatedAt` descending. -/
def sortDesc : List Ticket → List Ticket
  | [] => []
  | h :: rest => insertDesc h (sortDesc rest)

/-- The paginated, counted query shared by both variants. -/
def runQuery (db : List Ticket) (w : WhereCond) (pageNumber : Int) : Response :=
  let limit : Int := 40
  let offset : Int := limit * (pageNumber - 1)
  let filtered := db.filter (fun t => w.matches t)
  let count := filtered.length
  let tickets := ((sortDesc filtered).drop offset.toNat).take limit.toNat
  { tickets := tickets
    count := count
    hasMore := decide ((count : Int) > offset + tickets.length) }

namespace Backend

/-- `user.profile === "admin" || user.profile === "superadmin"`. -/
def isAdmin (u : User) : Bool := u.profile == "admin" || u.profile == "superadmin"

/-- The `where`-building chain of the backend variant, given the already
computed `createdAt` range (the date parse is the only fallible step and is
factored out into `parseDateRange`). -/
def buildWhereCore (req : Request) (user : User) (dateRange : Option (Int × Int)) :
    WhereCond :=
  let userQueueIds := user.queues
  let effectiveQueueIds :=
    if isAdmin user && decide (0 < req.queueIds.length) then req.queueIds
    else userQueueIds
  let w : WhereCond :=
    if !isAdmin user then
      { queueId := some (QueueClause.inList
          (if effectiveQueueIds.isEmpty then [-1] else effectiveQueueIds)) }
    else if 0 < effectiveQueueIds.length then
      { queueId := some (QueueClause.inList effectiveQueueIds) }
    else {}
  let w :=
    if req.showAll == some "true" then w
    else { w with orKey := some (OrClause.ownerOrPending req.userId) }
  let w := applyStatus req w
  let w := applyDateRange dateRange w
  let w := applySearch req w
  if req.withUnreadMessages == some "true" then { w with unreadGt0 := true }
  else w

/-- The backend variant of `ListTicketsService`, over an explicit user
lookup, date collaborator and ticket store. -/
def ListTicketsService (lookup : String → Option User)
    (parseDate : String → Option Int) (db : List Ticket) (req : Request) :
    Except SvcError Response :=
  match lookup req.userId with
  | none => .error SvcError.notFound
  | some user =>
    match parseDateRange parseDate req with
    | .error e => .error e
    | .ok r => .ok (runQuery db (buildWhereCore req user r) req.pageNumber)

end Backend

namespace Part000

/-- `user.profile === "admin"` (no superadmin case in this variant). -/
def isAdmin (u : User) : Bool := u.profile == "admin"

/-- The `where`-building chain of the `src/unnamed/part_000` variant: queue
clause (admitting null), ownership/pending, the `showAll` reset, status,
search, date, then the unread block which re-writes the `[Op.or]` key. -/
def buildWhereCore (req : Request) (user : User) (dateRange : Option (Int × Int)) :
    WhereCond :=
  let userQueueIds := user.queues
  let w : WhereCond :=
    if isAdmin user then {}
    else { queueId := some (QueueClause.inListOrNull userQueueIds) }
  let w :=
    if !isAdmin user then
      { w with orKey := some (OrClause.ownerOrPending req.userId) }
    else
      { orKey := some (OrClause.ownerOrPending req.userId) }
  let w :=
    if req.showAll == some "true" then
      if isAdmin user then ({} : WhereCond)
      else { queueId := some (QueueClause.inListOrNull userQueueIds) }
    else w
  let w := applyStatus req w
  let w := applySearch req w
  let w := applyDateRange dateRange w
  if req.withUnreadMessages == some "true" then
    let w := { w with unreadGt0 := true }
    if !isAdmin user && req.showAll != some "true" then
      { w with orKey := some (OrClause.ownerOrPending req.userId) }
    else w
  else w

/-- The `src/unnamed/part_000` variant of `ListTicketsService`; note that it
never reads `req.queueIds` (the destructuring drops the field). -/
def ListTicketsService (lookup : String → Option User)
    (parseDate : String → Option Int) (db : List Ticket) (req : Request) :
    Except SvcError Response :=
  match lookup req.userId with
  | none => .error SvcError.notFound
  | some user =>
    match parseDateRange parseDate req with
    | .error e => .error e
    | .ok r => .ok (runQuery db (buildWhereCore req user r) req.pageNumber)

end Part000

/-! ### Sample data used by the concrete theorems -/

/-- An ordinary (non-elevated) user assigned to queue 5. -/
def user1 : User := { profile := "user", queues := [5] }

/-- A user lookup resolving only the id "1", to `user1`. -/
def lookup1 : String → Option User := fun uid => if uid == "1" then some user1 else none

/-- A date collaborator on which every date is malformed (the sample
requests below carry no date unless stated). -/
def noDate : String → Option Int := fun _ => none

/-- A ticket owned by user "2", with status "open", in queue 5, whose
contact is named "Maria Silva". -/
def ticketMaria : Ticket :=
  { id := 10, userId := "2", status := "open", queueId := some 5,
    contactName := "Maria Silva", contactNumber := "999", unreadMessages := 0,
    createdAt := 0, updatedAt := 0, messages := [] }

/-- An elevated (admin) user assigned to queue 7. -/
def adminUser : User := { profile := "admin", queues := [7] }

/-- A user lookup resolving only the id "9", to `adminUser`. -/
def lookupAdmin : String → Option User := fun uid => if uid == "9" then some adminUser else none

/-- A pending ticket in queue 9 (outside the queues of `adminUser`). -/
def ticketQ9 : Ticket :=
  { id := 11, userId := "2", status := "pending", queueId := some 9,
    contactName := "x", contactNumber := "1", unreadMessages := 0,
    createdAt := 0, updatedAt := 0, messages := [] }

/-- A superadmin user with no assigned queues. -/
def superUser : User := { profile := "superadmin", queues := [] }

/-- A user lookup resolving only the id "3", to `superUser`. -/
def lookupSuper : String → Option User := fun uid => if uid == "3" then some superUser else none

/-- A pending ticket in queue 5 owned by user "2". -/
def ticketQ5 : Ticket :=
  { id := 12, userId := "2", status := "pending", queueId := some 5,
    contactName := "x", contactNumber := "1", unreadMessages := 0,
    createdAt := 0, updatedAt := 0, messages := [] }

/-- A ticket assigned to no queue. -/
def ticketNoQueue : Ticket :=
  { id := 13, userId := "2", status := "open", queueId := none,
    contactName := "x", contactNumber := "1", unreadMessages := 0,
    createdAt := 0, updatedAt := 0, messages := [] }

/-- Request of user "1" with search text "mar" and all other filters unset. -/
def reqSearchMar : Request := { userId := "1", searchParam := "mar" }

/-- Request of admin user "9" with no queue ids supplied and no filters. -/
def reqAdminNoIds : Request := { userId := "9" }

/-- Request of superadmin user "3" with no filters. -/
def reqSuper : Request := { userId := "3" }

/-- Request of user "1" whose search text is a single space. -/
def reqSpace : Request := { userId := "1", searchParam := " " }

/-- Request of user "1" with the empty search text. -/
def reqPlain : Request := { userId := "1" }

/-- Request with unread filter and search text, for the C9 witness. -/
def reqUnreadSearch : Request :=
  { userId := "1", searchParam := "mar", withUnreadMessages := some "true" }

/-- A lookup that resolves no user, for the C7 witness. -/
def lookupNone : String → Option User := fun _ => none

/-- Request of user "1" carrying a malformed date, for the C7 witness. -/
def reqBadDate : Request := { userId := "1", date := some "not-a-date" }

/-- A ticket with its message list duplicated (used to state that the
distinct count is insensitive to one-to-many message matches). -/
def dupMsgs (t : Ticket) : Ticket := { t with messages := t.messages ++ t.messages }

/-- An ordinary (non-elevated) user with zero assigned queues. -/
def userNoQueues : User := { profile := "user", queues := [] }

/-- A user lookup resolving only the id "4", to `userNoQueues`. -/
def lookupNoQueues : String → Option User :=
  fun uid => if uid == "4" then some userNoQueues else none

/-- A pending ticket assigned to no queue. -/
def ticketNoQueuePending : Ticket :=
  { id := 14, userId := "2", status := "pending", queueId := none,
    contactName := "x", contactNumber := "1", unreadMessages := 0,
    createdAt := 0, updatedAt := 0, messages := [] }

/-- Request of user "4" with no filters. -/
def reqNoQueues : Request := { userId := "4" }

/-! ### Helper lemmas about the building steps -/

@[simp] lemma applyStatus_queueId (req : Request) (w : WhereCond) :
    (applyStatus req w).queueId = w.queueId := by
  unfold applyStatus; split <;> rfl

@[simp] lemma applyStatus_orKey (req : Request) (w : WhereCond) :
    (applyStatus req w).orKey = w.orKey := by
  unfold applyStatus; split <;> rfl

@[simp] lemma applyStatus_createdAt (req : Request) (w : WhereCond) :
    (applyStatus req w).createdAt = w.createdAt := by
  unfold applyStatus; split <;> rfl

@[simp] lemma applyStatus_unreadGt0 (req : Request) (w : WhereCond) :
    (applyStatus req w).unreadGt0 = w.unreadGt0 := by
  unfold applyStatus; split <;> rfl

@[simp] lemma applySearch_queueId (req : Request) (w : WhereCond) :
    (applySearch req w).queueId = w.queueId := by
  unfold applySearch; split <;> rfl

@[simp] lemma applySearch_status (req : Request) (w : WhereCond) :
    (applySearch req w).status = w.status := by
  unfold applySearch; split <;> rfl

@[simp] lemma applySearch_createdAt (req : Request) (w : WhereCond) :
    (applySearch req w).createdAt = w.createdAt := by
  unfold applySearch; split <;> rfl

@[simp] lemma applySearch_unreadGt0 (req : Request) (w : WhereCond) :
    (applySearch req w).unreadGt0 = w.unreadGt0 := by
  unfold applySearch; split <;> rfl

@[simp] lemma applyDateRange_queueId (r : Option (Int × Int)) (w : WhereCond) :
    (applyDateRange r w).queueId = w.queueId := by
  unfold applyDateRange; cases r <;> rfl

@[simp] lemma applyDateRange_orKey (r : Option (Int × Int)) (w : WhereCond) :
    (applyDateRange r w).orKey = w.orKey := by
  unfold applyDateRange; cases r <;> rfl

@[simp] lemma applyDateRange_status (r : Option (Int × Int)) (w : WhereCond) :
    (applyDateRange r w).status = w.status := by
  unfold applyDateRange; cases r <;> rfl

@[simp] lemma applyDateRange_unreadGt0 (r : Option (Int × Int)) (w : WhereCond) :
    (applyDateRange r w).unreadGt0 = w.unreadGt0 := by
  unfold applyDateRange; cases r <;> rfl

/-! ### Helper lemmas about the descending sort and the query -/

lemma mem_insertDesc {x t : Ticket} {l : List Ticket} :
    x ∈ insertDesc t l ↔ x = t ∨ x ∈ l := by
  induction l with
  | nil => simp [insertDesc]
  | cons h rest ih =>
      unfold insertDesc
      split
      · simp [List.mem_cons]
      · simp only [List.mem_cons, ih]
        tauto

lemma mem_sortDesc {x : Ticket} {l : List Ticket} : x ∈ sortDesc l ↔ x ∈ l := by
  induction l with
  | nil => simp [sortDesc]
  | cons h rest ih => simp [sortDesc, mem_insertDesc, ih]

lemma pairwise_insertDesc {t : Ticket} {l : List Ticket}
    (hl : l.Pairwise (fun a b => b.updatedAt ≤ a.updatedAt)) :
    (insertDesc t l).Pairwise (fun a b => b.updatedAt ≤ a.updatedAt) := by
  induction l with
  | nil => simp [insertDesc]
  | cons h rest ih =>
      rw [List.pairwise_cons] at hl
      obtain ⟨hhd, hrest⟩ := hl
      unfold insertDesc
      split
      · rename_i hle
        refine List.Pairwise.cons ?_ (List.Pairwise.cons hhd hrest)
        intro b hb
        rcases List.mem_cons.mp hb with rfl | hb
        · exact hle
        · exact le_trans (hhd b hb) hle
      · rename_i hgt
        refine List.Pairwise.cons ?_ (ih hrest)
        intro b hb
        rcases mem_insertDesc.mp hb with rfl | hb
        · exact le_of_not_le hgt
        · exact hhd b hb

lemma sortDesc_pairwise (l : List Ticket) :
    (sortDesc l).Pairwise (fun a b => b.updatedAt ≤ a.updatedAt) := by
  induction l with
  | nil => simp [sortDesc]
  | cons h rest ih => exact pairwise_insertDesc ih

lemma runQuery_tickets (db : List Ticket) (w : WhereCond) (p : Int) :
    (runQuery db w p).tickets =
      ((sortDesc (db.filter fun t => w.matches t)).drop (40 * (p - 1)).toNat).take 40 :=
  rfl

lemma runQuery_count (db : List Ticket) (w : WhereCond) (p : Int) :
    (runQuery db w p).count = (db.filter fun t => w.matches t).length :=
  rfl

lemma runQuery_hasMore (db : List Ticket) (w : WhereCond) (p : Int) :
    (runQuery db w p).hasMore =
      decide (((runQuery db w p).count : Int) >
        40 * (p - 1) + (runQuery db w p).tickets.length) :=
  rfl

lemma mem_runQuery {db : List Ticket} {w : WhereCond} {p : Int} {t : Ticket}
    (ht : t ∈ (runQuery db w p).tickets) : t ∈ db ∧ w.matches t = true := by
  rw [runQuery_tickets] at ht
  have h1 : t ∈ sortDesc (db.filter fun t => w.matches t) :=
    List.mem_of_mem_drop (List.mem_of_mem_take ht)
  have h2 : t ∈ db.filter fun t => w.matches t := mem_sortDesc.mp h1
  exact List.mem_filter.mp h2

/-! ### Structural lemmas about the backend where-chain -/

lemma Backend.backendCore_queueId_nonadmin (req : Request) (user : User)
    (r : Option (Int × Int)) (h : Backend.isAdmin user = false) :
    (Backend.buildWhereCore req user r).queueId =
      some (QueueClause.inList (if user.queues.isEmpty then [-1] else user.queues)) := by
  unfold Backend.buildWhereCore
  simp only [h, Bool.false_and, Bool.not_false, if_true, if_false, Bool.false_eq_true]
  split <;> split <;> simp

lemma Backend.buildWhereCore_queueIds_irrel (req : Request) (user : User)
    (r : Option (Int × Int)) (qs : List Int) (h : Backend.isAdmin user = false) :
    Backend.buildWhereCore { req with queueIds := qs } user r =
      Backend.buildWhereCore req user r := by
  unfold Backend.buildWhereCore
  simp only [h, Bool.false_and, Bool.false_eq_true, if_false]
  rfl

/-! ### Structural lemmas about the part_000 where-chain -/

lemma Part000.part000Core_queueId_nonadmin (req : Request) (user : User)
    (r : Option (Int × Int)) (h : Part000.isAdmin user = false) :
    (Part000.buildWhereCore req user r).queueId =
      some (QueueClause.inListOrNull user.queues) := by
  unfold Part000.buildWhereCore
  simp only [h, Bool.not_false, if_true, if_false, Bool.false_eq_true]
  split <;> (try split) <;> (try split) <;> simp

lemma Backend.backendService_ok {lookup : String → Option User}
    {parseDate : String → Option Int} {db : List Ticket} {req : Request}
    {user : User} {resp : Response}
    (hu : lookup req.userId = some user)
    (hok : Backend.ListTicketsService lookup parseDate db req = .ok resp) :
    ∃ r, parseDateRange parseDate req = .ok r ∧
      resp = runQuery db (Backend.buildWhereCore req user r) req.pageNumber := by
  cases hpd : parseDateRange parseDate req with
  | error e =>
      unfold Backend.ListTicketsService at hok
      rw [hu, hpd] at hok
      simp at hok
  | ok r =>
      unfold Backend.ListTicketsService at hok
      rw [hu, hpd] at hok
      simp only [Except.ok.injEq] at hok
      exact ⟨r, rfl, hok.symm⟩

lemma Part000.part000Service_ok {lookup : String → Option User}
    {parseDate : String → Option Int} {db : List Ticket} {req : Request}
    {user : User} {resp : Response}
    (hu : lookup req.userId = some user)
    (hok : Part000.ListTicketsService lookup parseDate db req = .ok resp) :
    ∃ r, parseDateRange parseDate req = .ok r ∧
      resp = runQuery db (Part000.buildWhereCore req user r) req.pageNumber := by
  cases hpd : parseDateRange parseDate req with
  | error e =>
      unfold Part000.ListTicketsService at hok
      rw [hu, hpd] at hok
      simp at hok
  | ok r =>
      unfold Part000.ListTicketsService at hok
      rw [hu, hpd] at hok
      simp only [Except.ok.injEq] at hok
      exact ⟨r, rfl, hok.symm⟩

/-- C2: in the backend variant, writing the search disjunction re-uses the
same computed key as the ownership/pending disjunction, so with `showAll`
unset and a non-empty `searchParam` the ownership/pending OR-group is
dropped rather than ANDed with the search OR-group: `ticketMaria` is
neither owned by the acting user nor pending, yet it is returned because
its contact name matches the search.  This contradicts the claim (and the
comment in the code that says the search block keeps all previous
filters). -/
theorem c2_search_drops_ownership_clause :
    (ticketMaria.userId == reqSearchMar.userId || ticketMaria.status == "pending") = false ∧
    reqSearchMar.showAll = none ∧
    (Backend.buildWhereCore reqSearchMar user1 none).orKey =
      some (OrClause.search "mar") ∧
    Backend.ListTicketsService lookup1 noDate [ticketMaria] reqSearchMar =
      .ok { tickets := [ticketMaria], count := 1, hasMore := false } := by
  decide

/-- C3: in the backend variant an admin supplying no queue ids is NOT given
full visibility: `effectiveQueueIds` falls back to the admin user queues
`[7]` and the `queueId IN` clause is applied, so the pending ticket in
queue 9 is filtered out, contradicting the claim (and the comment in the
code that an admin without an explicit filter sees everything). -/
theorem c3_admin_without_filter_still_restricted :
    Backend.isAdmin adminUser = true ∧
    adminUser.queues = [7] ∧
    reqAdminNoIds.queueIds = [] ∧
    ticketQ9.queueId = some 9 ∧
    Backend.ListTicketsService lookupAdmin noDate [ticketQ9] reqAdminNoIds =
      .ok { tickets := [], count := 0, hasMore := false } := by
  decide

/-- C5: the two variants compute different elevated-privilege flags: a
"superadmin" profile is elevated in the backend variant but not in
part_000, and on the same input the two services return different
results, so the two embedded functions are not extensionally equal. -/
theorem c5_superadmin_flag_divergence :
    Backend.isAdmin superUser = true ∧
    Part000.isAdmin superUser = false ∧
    Backend.ListTicketsService lookupSuper noDate [ticketQ5] reqSuper ≠
      Part000.ListTicketsService lookupSuper noDate [ticketQ5] reqSuper := by
  decide

/-- C10: in both variants a whitespace-only `searchParam` is truthy, so the
search branch runs with the trimmed-empty pattern (matching every row) and
its OR-group replaces the previously set ownership/pending OR-group; the
result therefore differs from the same request with the empty search
text. -/
theorem c10_whitespace_search_not_noop :
    sanitize " " = "" ∧
    (Backend.buildWhereCore reqSpace user1 none).orKey =
      some (OrClause.search "") ∧
    (Backend.buildWhereCore reqPlain user1 none).orKey =
      some (OrClause.ownerOrPending "1") ∧
    Backend.ListTicketsService lookup1 noDate [ticketMaria] reqSpace ≠
      Backend.ListTicketsService lookup1 noDate [ticketMaria] reqPlain ∧
    (Part000.buildWhereCore reqSpace user1 none).orKey =
      some (OrClause.search "") ∧
    Part000.ListTicketsService lookup1 noDate [ticketMaria] reqSpace ≠
      Part000.ListTicketsService lookup1 noDate [ticketMaria] reqPlain := by
  decide

/-- C4: in the part_000 variant, the queue-visibility clause of every
non-admin user is `queueId IN userQueueIds OR queueId IS NULL` on every
path (including `showAll=true`), so a ticket assigned to no queue passes
the queue clause for every non-admin user, in particular one with zero
assigned queues. -/
theorem c4_null_queue_ticket_passes_queue_clause
    (req : Request) (user : User) (r : Option (Int × Int)) (t : Ticket)
    (hadm : Part000.isAdmin user = false) (ht : t.queueId = none) :
    (Part000.buildWhereCore req user r).queueId =
      some (QueueClause.inListOrNull user.queues) ∧
    (Part000.buildWhereCore req user r).queueOk t = true := by
  have hq := Part000.part000Core_queueId_nonadmin req user r hadm
  refine ⟨hq, ?_⟩
  unfold WhereCond.queueOk
  rw [hq, ht]
  rfl

/-- Witness for C4: the concrete non-admin user `user1` (queues `[5]`) and
the concrete ticket `ticketNoQueue` (no queue). -/
theorem c4_null_queue_ticket_passes_queue_clause_witness :
    (Part000.buildWhereCore reqPlain user1 none).queueId =
      some (QueueClause.inListOrNull [5]) ∧
    (Part000.buildWhereCore reqPlain user1 none).queueOk ticketNoQueue = true :=
  c4_null_queue_ticket_passes_queue_clause reqPlain user1 none ticketNoQueue
    (by decide) (by decide)

/-- C9: in the part_000 variant, for a non-admin request with
`withUnreadMessages="true"`, `showAll` not `"true"` and a non-empty
`searchParam`, the unread block re-writes the single `[Op.or]` key with
the ownership/pending group, overwriting the search group; consequently
the built predicate no longer depends on the search text at all. -/
theorem c9_unread_overwrites_search
    (req : Request) (user : User) (r : Option (Int × Int))
    (hadm : Part000.isAdmin user = false)
    (hunread : req.withUnreadMessages = some "true")
    (hshow : req.showAll ≠ some "true")
    (hsearch : req.searchParam ≠ "") :
    (Part000.buildWhereCore req user r).orKey =
      some (OrClause.ownerOrPending req.userId) ∧
    ∀ s : String, s ≠ "" →
      Part000.buildWhereCore { req with searchParam := s } user r =
        Part000.buildWhereCore req user r := by
  constructor
  · unfold Part000.buildWhereCore
    simp [hadm, hunread, hshow]
  · intro s hs
    unfold Part000.buildWhereCore
    cases r <;>
      simp [hadm, hunread, hshow, hs, hsearch, applyStatus, applySearch,
        applyDateRange]

/-- Witness for C9 at the concrete request `reqUnreadSearch`. -/
theorem c9_unread_overwrites_search_witness :
    (Part000.buildWhereCore reqUnreadSearch user1 none).orKey =
      some (OrClause.ownerOrPending "1") ∧
    Part000.buildWhereCore { reqUnreadSearch with searchParam := "zzz" } user1 none =
      Part000.buildWhereCore reqUnreadSearch user1 none := by
  have h := c9_unread_overwrites_search reqUnreadSearch user1 none
    (by decide) rfl (by decide) (by decide)
  exact ⟨h.1, h.2 "zzz" (by decide)⟩

lemma WhereCond.matches_queueOk {w : WhereCond} {t : Ticket}
    (h : w.matches t = true) : w.queueOk t = true := by
  unfold WhereCond.matches at h
  simp only [Bool.and_eq_true] at h
  exact h.1.1.1.1

lemma WhereCond.matches_orOk {w : WhereCond} {t : Ticket}
    (h : w.matches t = true) : w.orOk t = true := by
  unfold WhereCond.matches at h
  simp only [Bool.and_eq_true] at h
  exact h.1.1.1.2

/-- C1 counterexample: the claim is false as stated over both variants: in
the part_000 variant the non-admin queue clause is
`queueId IN userQueueIds OR queueId IS NULL`, so a non-admin user with
zero assigned queues still receives a pending ticket that is assigned to
no queue -- the result set is non-empty and the returned ticket has no
queueId in the (empty) assigned-queue set. -/
theorem c1_part000_null_queue_leak :
    Part000.isAdmin userNoQueues = false ∧
    userNoQueues.queues = [] ∧
    ticketNoQueuePending.queueId = none ∧
    Part000.ListTicketsService lookupNoQueues noDate [ticketNoQueuePending] reqNoQueues =
      .ok { tickets := [ticketNoQueuePending], count := 1, hasMore := false } := by
  decide

/-- C1 (amended: restricted to the backend variant, which the part_000
counterexample above forces): in the backend variant, for every request by
a non-elevated user (every returned page, over every combination of the
other parameters), every returned ticket lies in one of the queues
assigned to that user; and a user with zero assigned queues gets an empty
result (the clause becomes `queueId IN [-1]`, a sentinel that matches no
real queue id, which is what the nonnegativity hypothesis on stored queue
ids expresses). -/
theorem c1_nonelevated_queue_scope
    (lookup : String → Option User) (parseDate : String → Option Int)
    (db : List Ticket) (req : Request) (user : User) (resp : Response)
    (hu : lookup req.userId = some user)
    (hadm : Backend.isAdmin user = false)
    (hids : ∀ t ∈ db, ∀ q : Int, t.queueId = some q → 0 ≤ q)
    (hok : Backend.ListTicketsService lookup parseDate db req = .ok resp) :
    (∀ t ∈ resp.tickets, ∃ q, t.queueId = some q ∧ q ∈ user.queues) ∧
    (user.queues = [] → resp.tickets = [] ∧ resp.count = 0) := by
  obtain ⟨r, hpd, hresp⟩ := Backend.backendService_ok hu hok
  subst hresp
  have hq := Backend.backendCore_queueId_nonadmin req user r hadm
  by_cases hempty : user.queues = []
  · rw [hempty] at hq
    simp only [List.isEmpty_nil, if_true] at hq
    have hfilt :
        db.filter (fun t => (Backend.buildWhereCore req user r).matches t) = [] := by
      rw [List.filter_eq_nil_iff]
      intro t htdb hmatch
      have hqok := WhereCond.matches_queueOk hmatch
      unfold WhereCond.queueOk at hqok
      rw [hq] at hqok
      cases htq : t.queueId with
      | none => rw [htq] at hqok; simp [QueueClause.matches] at hqok
      | some q =>
          rw [htq] at hqok
          simp only [QueueClause.matches] at hqok
          have hqm : q = -1 := by simpa using hqok
          have := hids t htdb q htq
          omega
    have htick : (runQuery db (Backend.buildWhereCore req user r) req.pageNumber).tickets = [] := by
      rw [runQuery_tickets, hfilt]
      simp [sortDesc]
    have hcount : (runQuery db (Backend.buildWhereCore req user r) req.pageNumber).count = 0 := by
      rw [runQuery_count, hfilt]
      rfl
    refine ⟨fun t ht => absurd ht (by rw [htick]; simp), fun _ => ⟨htick, hcount⟩⟩
  · refine ⟨?_, fun h => absurd h hempty⟩
    intro t ht
    obtain ⟨htdb, hmatch⟩ := mem_runQuery ht
    have hqok := WhereCond.matches_queueOk hmatch
    unfold WhereCond.queueOk at hqok
    rw [hq] at hqok
    have hne : user.queues.isEmpty = false := by
      cases hqs : user.queues with
      | nil => exact absurd hqs hempty
      | cons a as => rfl
    rw [hne] at hqok
    simp only [Bool.false_eq_true, if_false] at hqok
    cases htq : t.queueId with
    | none => rw [htq] at hqok; simp [QueueClause.matches] at hqok
    | some q =>
        rw [htq] at hqok
        simp only [QueueClause.matches] at hqok
        exact ⟨q, rfl, by simpa using hqok⟩

/-- Witness for C1 at a concrete non-elevated user and request. -/
theorem c1_nonelevated_queue_scope_witness :
    (∀ t ∈ (Response.mk [] 0 false).tickets, ∃ q, t.queueId = some q ∧ q ∈ user1.queues) ∧
    (user1.queues = [] →
      (Response.mk [] 0 false).tickets = [] ∧ (Response.mk [] 0 false).count = 0) :=
  c1_nonelevated_queue_scope lookup1 noDate [] reqPlain user1 ⟨[], 0, false⟩
    (by decide) (by decide) (fun t ht => absurd ht (List.not_mem_nil t)) (by decide)

lemma Backend.service_respects_core (lookup : String → Option User)
    (parseDate : String → Option Int) (db : List Ticket) (r₁ r₂ : Request)
    (user : User)
    (huid : r₁.userId = r₂.userId) (hdate : r₁.date = r₂.date)
    (hpage : r₁.pageNumber = r₂.pageNumber)
    (hu : lookup r₂.userId = some user)
    (hcore : ∀ dr, Backend.buildWhereCore r₁ user dr = Backend.buildWhereCore r₂ user dr) :
    Backend.ListTicketsService lookup parseDate db r₁ =
      Backend.ListTicketsService lookup parseDate db r₂ := by
  unfold Backend.ListTicketsService
  rw [huid, hu]
  dsimp only
  have hpd : parseDateRange parseDate r₁ = parseDateRange parseDate r₂ := by
    unfold parseDateRange
    rw [hdate]
  rw [hpd]
  cases parseDateRange parseDate r₂ with
  | error e => rfl
  | ok dr =>
      dsimp only
      rw [hcore dr, hpage]

/-- C6: for every non-elevated user, the response is independent of the
caller-supplied `queueIds` parameter: the built predicate and the full
`{tickets, count, hasMore}` response agree for any two `queueIds` lists.
(In the part_000 variant the parameter is ignored for every user, so the
corresponding equation is definitional.) -/
theorem c6_queueIds_independence
    (lookup : String → Option User) (parseDate : String → Option Int)
    (db : List Ticket) (req : Request) (qs₁ qs₂ : List Int) (user : User)
    (hu : lookup req.userId = some user)
    (hadm : Backend.isAdmin user = false) :
    (∀ r, Backend.buildWhereCore { req with queueIds := qs₁ } user r =
          Backend.buildWhereCore { req with queueIds := qs₂ } user r) ∧
    Backend.ListTicketsService lookup parseDate db { req with queueIds := qs₁ } =
      Backend.ListTicketsService lookup parseDate db { req with queueIds := qs₂ } ∧
    Part000.ListTicketsService lookup parseDate db { req with queueIds := qs₁ } =
      Part000.ListTicketsService lookup parseDate db { req with queueIds := qs₂ } := by
  refine ⟨fun r => ?_, ?_, rfl⟩
  · rw [Backend.buildWhereCore_queueIds_irrel req user r qs₁ hadm,
        Backend.buildWhereCore_queueIds_irrel req user r qs₂ hadm]
  · refine Backend.service_respects_core lookup parseDate db _ _ user rfl rfl rfl hu ?_
    intro dr
    rw [Backend.buildWhereCore_queueIds_irrel req user dr qs₁ hadm,
        Backend.buildWhereCore_queueIds_irrel req user dr qs₂ hadm]

/-- Witness for C6 at a concrete non-elevated user and two concrete
queueIds lists. -/
theorem c6_queueIds_independence_witness :
    (∀ r, Backend.buildWhereCore { reqPlain with queueIds := [9] } user1 r =
          Backend.buildWhereCore { reqPlain with queueIds := [] } user1 r) ∧
    Backend.ListTicketsService lookup1 noDate [ticketMaria]
        { reqPlain with queueIds := [9] } =
      Backend.ListTicketsService lookup1 noDate [ticketMaria]
        { reqPlain with queueIds := [] } ∧
    Part000.ListTicketsService lookup1 noDate [ticketMaria]
        { reqPlain with queueIds := [9] } =
      Part000.ListTicketsService lookup1 noDate [ticketMaria]
        { reqPlain with queueIds := [] } :=
  c6_queueIds_independence lookup1 noDate [ticketMaria] reqPlain [9] [] user1
    (by decide) (by decide)

/-- C7: in both variants the only two domain errors are: a not-found error
exactly when the acting user id does not resolve, and a validation error
when a truthy date parameter is unparseable (the failure is independent of
the ticket store, i.e. happens before the query); in every other case the
service returns a well-formed page. -/
theorem c7_error_conditions
    (lookup : String → Option User) (parseDate : String → Option Int)
    (db : List Ticket) (req : Request) :
    (lookup req.userId = none →
      Backend.ListTicketsService lookup parseDate db req = .error SvcError.notFound ∧
      Part000.ListTicketsService lookup parseDate db req = .error SvcError.notFound) ∧
    (∀ user, lookup req.userId = some user →
      truthyStr req.date = true → parseDate (req.date.getD "") = none →
      Backend.ListTicketsService lookup parseDate db req = .error SvcError.validationError ∧
      Part000.ListTicketsService lookup parseDate db req = .error SvcError.validationError) ∧
    (∀ user, lookup req.userId = some user →
      (truthyStr req.date = true → parseDate (req.date.getD "") ≠ none) →
      (∃ resp, Backend.ListTicketsService lookup parseDate db req = .ok resp) ∧
      (∃ resp, Part000.ListTicketsService lookup parseDate db req = .ok resp)) := by
  refine ⟨fun hn => ?_, fun user hu hd hp => ?_, fun user hu hgood => ?_⟩
  · constructor
    · unfold Backend.ListTicketsService
      rw [hn]
    · unfold Part000.ListTicketsService
      rw [hn]
  · have hpd : parseDateRange parseDate req = .error SvcError.validationError := by
      unfold parseDateRange
      simp [hd, hp]
    constructor
    · unfold Backend.ListTicketsService
      rw [hu, hpd]
    · unfold Part000.ListTicketsService
      rw [hu, hpd]
  · cases hpd : parseDateRange parseDate req with
    | error e =>
        exfalso
        by_cases htd : truthyStr req.date = true
        · cases hpp : parseDate (req.date.getD "") with
          | none => exact hgood htd hpp
          | some d =>
              have hok : parseDateRange parseDate req = .ok (some (d, d + 86399999)) := by
                unfold parseDateRange
                simp [htd, hpp]
              rw [hok] at hpd
              exact Except.noConfusion hpd
        · have hok : parseDateRange parseDate req = .ok none := by
            unfold parseDateRange
            simp [htd]
          rw [hok] at hpd
          exact Except.noConfusion hpd
    | ok r =>
        constructor
        · exact ⟨_, by unfold Backend.ListTicketsService; rw [hu, hpd]⟩
        · exact ⟨_, by unfold Part000.ListTicketsService; rw [hu, hpd]⟩

/-- Witness for C7: the three error/success cases at concrete inputs. -/
theorem c7_error_conditions_witness :
    Backend.ListTicketsService lookupNone noDate [] reqPlain =
      .error SvcError.notFound ∧
    Backend.ListTicketsService lookup1 noDate [] reqBadDate =
      .error SvcError.validationError ∧
    ∃ resp, Part000.ListTicketsService lookup1 noDate [] reqPlain = .ok resp :=
  ⟨((c7_error_conditions lookupNone noDate [] reqPlain).1 rfl).1,
   ((c7_error_conditions lookup1 noDate [] reqBadDate).2.1 user1
      (by decide) (by decide) rfl).1,
   ((c7_error_conditions lookup1 noDate [] reqPlain).2.2 user1
      (by decide) (by decide)).2⟩

lemma orOk_dupMsgs (w : WhereCond) (t : Ticket) : w.orOk (dupMsgs t) = w.orOk t := by
  unfold WhereCond.orOk
  cases w.orKey with
  | none => rfl
  | some c =>
      cases c with
      | ownerOrPending uid => rfl
      | search pat =>
          unfold OrClause.matches dupMsgs
          simp [List.any_append]

lemma matches_dupMsgs (w : WhereCond) (t : Ticket) :
    w.matches (dupMsgs t) = w.matches t := by
  unfold WhereCond.matches
  rw [orOk_dupMsgs]
  rfl

lemma filter_dupMsgs_length (db : List Ticket) (w : WhereCond) :
    ((db.map dupMsgs).filter fun t => w.matches t).length =
      (db.filter fun t => w.matches t).length := by
  induction db with
  | nil => rfl
  | cons h rest ih =>
      simp only [List.map_cons, List.filter_cons, matches_dupMsgs]
      by_cases hm : w.matches h = true
      · simp [hm, ih]
      · simp [hm, ih]

/-- C8: the query contract shared by both variants: the page is the slice
at offset `40 * (page - 1)` of length at most 40 of the matching rows in
`updatedAt`-descending order; the count is the de-duplicated number of
matching tickets (duplicating the message rows of every ticket leaves it
unchanged, so one-to-many message matches do not multiply it); and
`hasMore` holds iff `count > offset + number of returned rows`. -/
theorem c8_pagination_contract (db : List Ticket) (w : WhereCond) (page : Int) :
    (runQuery db w page).tickets =
      ((sortDesc (db.filter fun t => w.matches t)).drop (40 * (page - 1)).toNat).take 40 ∧
    (runQuery db w page).tickets.length ≤ 40 ∧
    (runQuery db w page).count = (db.filter fun t => w.matches t).length ∧
    (runQuery db w page).tickets.Pairwise (fun a b => b.updatedAt ≤ a.updatedAt) ∧
    ((runQuery db w page).hasMore = true ↔
      ((runQuery db w page).count : Int) >
        40 * (page - 1) + (runQuery db w page).tickets.length) ∧
    (runQuery (db.map dupMsgs) w page).count = (runQuery db w page).count := by
  refine ⟨rfl, ?_, rfl, ?_, ?_, ?_⟩
  · rw [runQuery_tickets]
    exact List.length_take_le _ _
  · rw [runQuery_tickets]
    have hsub :
        List.Sublist
          (((sortDesc (db.filter fun t => w.matches t)).drop (40 * (page - 1)).toNat).take 40)
          (sortDesc (db.filter fun t => w.matches t)) :=
      (List.take_sublist _ _).trans (List.drop_sublist _ _)
    exact (sortDesc_pairwise _).sublist hsub
  · rw [runQuery_hasMore]
    exact decide_eq_true_iff
  · rw [runQuery_count, runQuery_count]
    exact filter_dupMsgs_length db w
